import Mathlib

/-!
Verification of the lawn-care booking application ("app.py"): the multi-step
booking session state machine (routes booking_step2 / booking_step3 /
booking_step4) and the weather gateway with file cache and mock fallback
(get_weather, load/save_weather_cache, is_cache_valid, get_mock_weather_data).

Modelling conventions:
* Python floats that hold money values are modelled as exact rationals (Rat).
* The Flask session draft session[the key booking_data] is an
  Option BookingData: none means the key is absent.
* The SQLAlchemy-persisted bookings table is a List Booking; a commit that
  fails is modelled by the Boolean commit_ok, and the except-branch rollback
  leaves the list unchanged.
* The weather cache JSON file is an association list from cache key to
  entry; a timestamp that is absent or unparseable is none.
* The outcome of the outbound HTTP request is a ProviderOutcome value:
  either a transport exception or a response with a status code, a flag for
  the presence of an error key in the JSON body, and the payload.
-/

namespace LawnService

/-- Row of the services table (class Service in app.py). -/
structure Service where
  id : Nat
  name : String
  description : String
  price : Rat
  duration_hours : Nat
  active : Bool
deriving Repr, DecidableEq

/-- A parsed calendar instant, the result of datetime.strptime with the
format string Y-m-d H:M in booking_step4. -/
structure DateTime where
  year : Nat
  month : Nat
  day : Nat
  hour : Nat
  minute : Nat
deriving Repr, DecidableEq

/-- One selected product as sent by the step-2 client (only the fields the
server ever reads back: id and price). -/
structure ProductSel where
  id : Nat
  price : Rat
deriving Repr, DecidableEq

/-- The session draft stored under the booking_data key.  booking_step2
creates it with exactly the three mandatory fields; later steps attach the
optional ones. -/
structure BookingData where
  service_id : Nat
  service_name : String
  price : Rat
  products : Option (List ProductSel) := none
  products_total : Option Rat := none
  scheduled_date : Option String := none
  scheduled_time : Option String := none
  special_instructions : Option String := none
deriving Repr, DecidableEq

/-- Row of the bookings table (class Booking in app.py), restricted to the
fields booking_step4 writes. -/
structure Booking where
  user_id : Nat
  service_id : Nat
  scheduled_date : DateTime
  status : String
  special_instructions : String
  total_price : Rat
deriving Repr, DecidableEq

/-- A handler response: a JSON body with a success flag and optional
message, or the redirect to booking_step1 issued when no draft exists. -/
inductive Resp where
  | json (success : Bool) (message : Option String)
  | redirectStep1
deriving Repr, DecidableEq

/-- The two POST bodies booking_step2 distinguishes: one carrying
service_id (with service_name and price), one carrying products (with an
optional products_total). -/
inductive Step2Req where
  | serviceSelect (service_id : Nat) (service_name : String) (price : Rat)
  | productsSelect (products : List ProductSel) (products_total : Option Rat)
deriving Repr, DecidableEq

/-- POST handler of /booking/step2 (app.py lines 205-222).  A service
selection unconditionally overwrites the whole draft with the three fields;
a products selection requires an existing draft and attaches the product
list and subtotal (data.get with default 0). -/
def booking_step2_post (sess : Option BookingData) : Step2Req → Option BookingData × Resp
  | .serviceSelect sid sname p =>
      (some { service_id := sid, service_name := sname, price := p }, .json true none)
  | .productsSelect ps total =>
      match sess with
      | none => (none, .json false (some "No booking data found"))
      | some d =>
          (some { d with products := some ps, products_total := some (total.getD 0) },
           .json true none)

/-- POST body of /booking/step3: scheduled_date and scheduled_time are read
with mandatory indexing, special_instructions with data.get default. -/
structure Step3Req where
  scheduled_date : String
  scheduled_time : String
  special_instructions : Option String
deriving Repr, DecidableEq

/-- POST handler of /booking/step3 (app.py lines 287-298): requires an
existing draft, then updates it with the schedule fields. -/
def booking_step3_post (sess : Option BookingData) (req : Step3Req) :
    Option BookingData × Resp :=
  match sess with
  | none => (none, .json false (some "No booking data found"))
  | some d =>
      (some { d with scheduled_date := some req.scheduled_date,
                     scheduled_time := some req.scheduled_time,
                     special_instructions := some (req.special_instructions.getD "") },
       .json true none)

def isLeapYear (y : Nat) : Bool :=
  (y % 4 == 0 && y % 100 != 0) || y % 400 == 0

def daysInMonth (y m : Nat) : Nat :=
  if m == 2 then (if isLeapYear y then 29 else 28)
  else if m == 4 || m == 6 || m == 9 || m == 11 then 30
  else 31

/-- Split a character list at every occurrence of the separator. -/
def splitOnChar (sep : Char) : List Char → List (List Char)
  | [] => [[]]
  | c :: rest =>
      let r := splitOnChar sep rest
      if c = sep then [] :: r
      else
        match r with
        | [] => [[c]]
        | g :: gs => (c :: g) :: gs

/-- Read a nonempty all-digit character list as a decimal number. -/
def chars_to_nat? (cs : List Char) : Option Nat :=
  if cs ≠ [] ∧ cs.all Char.isDigit then
    some (cs.foldl (fun n c => n * 10 + (c.toNat - 48)) 0)
  else none

/-- datetime.strptime applied to the concatenation of the draft date and
time with format Y-m-d H:M: three dash-separated decimal fields (year up to
four digits, month and day up to two) and two colon-separated ones, with
calendar validation; returns none where strptime raises ValueError. -/
def strptime_date_time (ds ts : String) : Option DateTime :=
  match splitOnChar '-' ds.data, splitOnChar ':' ts.data with
  | [ys, ms, dds], [hs, mins] =>
      match chars_to_nat? ys, chars_to_nat? ms, chars_to_nat? dds,
            chars_to_nat? hs, chars_to_nat? mins with
      | some y, some m, some d, some h, some mi =>
          if ys.length ≤ 4 ∧ ms.length ≤ 2 ∧ dds.length ≤ 2 ∧ hs.length ≤ 2 ∧
             mins.length ≤ 2 ∧ 1 ≤ m ∧ m ≤ 12 ∧ 1 ≤ d ∧ d ≤ daysInMonth y m ∧
             h < 24 ∧ mi < 60
          then some ⟨y, m, d, h, mi⟩ else none
      | _, _, _, _, _ => none
  | _, _ => none

/-- Service.query.get on the primary key. -/
def find_service (services : List Service) (sid : Nat) : Option Service :=
  services.find? (fun s => s.id == sid)

/-- The Booking row constructed by booking_step4 on the success path. -/
def bookingOf (uid : Nat) (svc : Service) (dt : DateTime) (bd : BookingData) : Booking :=
  { user_id := uid, service_id := svc.id, scheduled_date := dt,
    status := "confirmed",
    special_instructions := bd.special_instructions.getD "",
    total_price := svc.price + bd.products_total.getD 0 }

/-- POST handler of /booking/step4 (app.py lines 308-352).  With no draft
the route redirects to step 1 before even looking at the method.  With a
draft: service lookup (failure reported, draft kept); missing schedule keys
or a strptime ValueError land in the except branch (rollback, failure
message, draft kept); a commit failure likewise rolls back and keeps the
draft; only after a successful commit is the draft popped. -/
def booking_step4_post (sess : Option BookingData) (services : List Service)
    (uid : Nat) (commit_ok : Bool) (db : List Booking) :
    Option BookingData × List Booking × Resp :=
  match sess with
  | none => (none, db, .redirectStep1)
  | some bd =>
      match find_service services bd.service_id with
      | none => (some bd, db, .json false (some "Service not found"))
      | some svc =>
          match bd.scheduled_date, bd.scheduled_time with
          | some ds, some ts =>
              match strptime_date_time ds ts with
              | none => (some bd, db, .json false (some "Error confirming booking"))
              | some dt =>
                  if commit_ok then
                    (none, db ++ [bookingOf uid svc dt bd],
                     .json true (some "Booking confirmed successfully!"))
                  else
                    (some bd, db, .json false (some "Error confirming booking"))
          | _, _ => (some bd, db, .json false (some "Error confirming booking"))

/-- The draft operations of the wizard, as issued by a client. -/
inductive DraftOp where
  | chooseService (service_id : Nat) (service_name : String) (price : Rat)
  | chooseProducts (products : List ProductSel) (products_total : Option Rat)
  | schedule (scheduled_date scheduled_time : String) (special_instructions : Option String)
  | confirm (commit_ok : Bool)
deriving Repr, DecidableEq

/-- Server-side state a sequence of draft operations acts on: the session
draft plus the durable bookings table. -/
structure SessionState where
  draft : Option BookingData
  db : List Booking
deriving Repr, DecidableEq

/-- Dispatch one draft operation to the handler that serves it. -/
def runOp (services : List Service) (uid : Nat) (st : SessionState) :
    DraftOp → SessionState × Resp
  | .chooseService sid sname p =>
      let r := booking_step2_post st.draft (.serviceSelect sid sname p)
      ({ st with draft := r.1 }, r.2)
  | .chooseProducts ps t =>
      let r := booking_step2_post st.draft (.productsSelect ps t)
      ({ st with draft := r.1 }, r.2)
  | .schedule ds ts ins =>
      let r := booking_step3_post st.draft ⟨ds, ts, ins⟩
      ({ st with draft := r.1 }, r.2)
  | .confirm ok =>
      let r := booking_step4_post st.draft services uid ok st.db
      ({ draft := r.1, db := r.2.1 }, r.2.2)

/-- Run a sequence of draft operations, collecting the responses. -/
def runOps (services : List Service) (uid : Nat) (st : SessionState) :
    List DraftOp → SessionState × List Resp
  | [] => (st, [])
  | op :: ops =>
      let r := runOp services uid st op
      let rest := runOps services uid r.1 ops
      (rest.1, r.2 :: rest.2)

/-- Whether a draft operation is a service selection (step 1 submission). -/
def isServiceChoice : DraftOp → Bool
  | .chooseService _ _ _ => true
  | _ => false

/-- The response each draft-less operation produces: the NoDraftError
surface form of each handler. -/
def noDraftResp : DraftOp → Resp
  | .chooseService _ _ _ => .json true none
  | .chooseProducts _ _ => .json false (some "No booking data found")
  | .schedule _ _ _ => .json false (some "No booking data found")
  | .confirm _ => .redirectStep1

/-- The six services seeded by init_database (ids by autoincrement). -/
def services_demo : List Service :=
  [⟨1, "Lawn Mowing", "Professional lawn mowing service", 50, 1, true⟩,
   ⟨2, "Fertilization", "Organic fertilization treatment", 75, 1, true⟩,
   ⟨3, "Weed Control", "Professional weed control treatment", 65, 1, true⟩,
   ⟨4, "Aeration", "Lawn aeration service", 100, 2, true⟩,
   ⟨5, "Overseeding", "Grass overseeding service", 85, 2, true⟩,
   ⟨6, "Leaf Removal", "Fall leaf cleanup service", 60, 2, true⟩]

/-- A weather payload as the application sees it: the fields of the
provider JSON that get_mock_weather_data fixes (location block and current
block). -/
structure WeatherPayload where
  location_name : String
  region : String
  country : String
  temperature : Int
  weather_descriptions : List String
  weather_icons : List String
  humidity : Int
  wind_speed : Int
  wind_dir : String
  uv_index : Int
  visibility : Int
deriving Repr, DecidableEq

/-- get_mock_weather_data (app.py lines 385-403): the deterministic
fallback payload for a location. -/
def get_mock_weather_data (location : String) : WeatherPayload :=
  { location_name := location,
    region := "Local Area",
    country := "United States",
    temperature := 72,
    weather_descriptions := ["Partly Cloudy"],
    weather_icons := ["https://assets.weatherstack.com/images/wsymbols01_png_64/wsymbol_0002_sunny_intervals.png"],
    humidity := 65,
    wind_speed := 8,
    wind_dir := "SW",
    uv_index := 5,
    visibility := 10 }

/-- One entry of the weather cache file: the stored payload and the stored
timestamp, none when the timestamp key is absent or does not parse as an
ISO instant (datetime.fromisoformat raising).  A parsed instant is modelled
as seconds. -/
structure CacheEntry where
  data : WeatherPayload
  timestamp : Option Int
deriving Repr, DecidableEq

/-- The weather cache as loaded from weather_cache.json: a key-to-entry
mapping, modelled as an insertion-ordered association list (Python dict). -/
abbrev WeatherCache := List (String × CacheEntry)

/-- Dictionary lookup cache[k] (and the membership test k in cache). -/
def cacheFind (cache : WeatherCache) (k : String) : Option CacheEntry :=
  (List.find? (fun e => e.1 == k) cache).map (fun e => e.2)

/-- Dictionary assignment cache[k] = v: replace the existing binding in
place, else append. -/
def cacheUpsert : WeatherCache → String → CacheEntry → WeatherCache
  | [], k, v => [(k, v)]
  | (k0, v0) :: rest, k, v =>
      if k0 == k then (k0, v) :: rest else (k0, v0) :: cacheUpsert rest k v

/-- is_cache_valid (app.py lines 377-383): an absent or unparseable
timestamp is invalid; otherwise the entry is valid when now minus the
cached instant is below two hours (7200 seconds). -/
def is_cache_valid (cached_time : Option Int) (now : Int) : Bool :=
  match cached_time with
  | none => false
  | some t => now - t < 7200

/-- The cache key characters: the prefix weather_ followed by the location
lowercased and with every space replaced by an underscore.  In Python,
str.lower is Char.toLower per character for ASCII, and str.replace with a
one-character pattern and one-character replacement is a per-character
substitution. -/
def cache_key_chars (cs : List Char) : List Char :=
  "weather_".data ++ (cs.map Char.toLower).map (fun c => if c = ' ' then '_' else c)

/-- The cache key of app.py line 414. -/
def cache_key (location : String) : String :=
  String.mk (cache_key_chars location.data)

/-- The observable outcome of the requests.get call to the provider:
a transport exception (requests.exceptions.RequestException), or a
response with its HTTP status, whether the JSON body contains an error
key, and the decoded payload. -/
inductive ProviderOutcome where
  | exception
  | response (status : Nat) (has_error_key : Bool) (payload : WeatherPayload)
deriving Repr, DecidableEq

/-- The JSON body answered by /api/weather: the success flag, the data
block, the cached flag, whether the mock key is present, and the timestamp
field. -/
structure WeatherResp where
  success : Bool
  data : WeatherPayload
  cached : Bool
  mock : Bool
  timestamp : Option Int
deriving Repr, DecidableEq

/-- The fetch-then-fallback tail of get_weather (app.py lines 425-469):
on a 200 response whose body has no error key, write the payload into the
cache stamped with the datetime.now() read of line 442 (t_stamp) and
answer it uncached with the later, distinct datetime.now() read of line
451 (t_resp) — the save_weather_cache file write sits between the two
reads, so the two instants differ in general; on any other status, an
error key, or a transport exception, answer the mock payload tagged mock,
stamped with the datetime.now() read of line 468 (t_resp), without
touching the cache. -/
def fetch_and_fallback (location : String) (cache : WeatherCache)
    (t_stamp t_resp : Int) : ProviderOutcome → WeatherResp × WeatherCache
  | .response status has_err payload =>
      if status = 200 ∧ has_err = false then
        ({ success := true, data := payload, cached := false, mock := false,
           timestamp := some t_resp },
         cacheUpsert cache (cache_key location) ⟨payload, some t_stamp⟩)
      else
        ({ success := true, data := get_mock_weather_data location, cached := false,
           mock := true, timestamp := some t_resp }, cache)
  | .exception =>
      ({ success := true, data := get_mock_weather_data location, cached := false,
         mock := true, timestamp := some t_resp }, cache)

/-- Whether the provider call failed in the sense handled by the fallback:
a transport exception, a status other than 200, or an error key present. -/
def provider_failed : ProviderOutcome → Bool
  | .exception => true
  | .response status has_err _ => !(status == 200 && has_err == false)

/-- The cache-hit test of app.py line 416: the key is present and its
stored timestamp is still valid. -/
def cache_valid_hit (location : String) (cache : WeatherCache) (now : Int) : Bool :=
  match cacheFind cache (cache_key location) with
  | some entry => is_cache_valid entry.timestamp now
  | none => false

/-- get_weather (app.py lines 405-469).  Returns the response body, the
cache as persisted after the call, and whether the outbound provider call
was made.  The three instants are the three distinct datetime.now() reads
of one request: t_check inside is_cache_valid (line 381), t_stamp for the
stored cache entry (line 442), t_resp when the returned JSON is built
(line 451, or line 468 on the mock path).  A valid cached entry is
answered as-is, tagged cached and carrying the stored stamp (line 422),
without any network call; otherwise the fetch-then-fallback tail runs. -/
def get_weather (location : String) (cache : WeatherCache)
    (t_check t_stamp t_resp : Int) (outcome : ProviderOutcome) :
    WeatherResp × WeatherCache × Bool :=
  match cacheFind cache (cache_key location) with
  | some entry =>
      if is_cache_valid entry.timestamp t_check then
        ({ success := true, data := entry.data, cached := true, mock := false,
           timestamp := entry.timestamp }, cache, false)
      else
        let r := fetch_and_fallback location cache t_stamp t_resp outcome
        (r.1, r.2, true)
  | none =>
      let r := fetch_and_fallback location cache t_stamp t_resp outcome
      (r.1, r.2, true)

/-- File-system operations, at the granularity save_weather_cache uses
them. -/
inductive FileOp where
  | openWrite (path : String)
  | writeContent (path : String) (content : String)
  | renameFile (src dst : String)
deriving Repr, DecidableEq

/-- The operation trace of save_weather_cache (app.py lines 368-375):
open(cache_file, mode w) — which truncates the existing file in place —
followed by json.dump writing the serialized mapping.  No temporary file
and no rename. -/
def save_weather_cache_trace (serialized : String) : List FileOp :=
  [FileOp.openWrite "weather_cache.json",
   FileOp.writeContent "weather_cache.json" serialized]

/-- Whether a trace is the write-new-file-then-swap pattern for the given
final path: open a distinct temporary file, write it, rename it over the
final path. -/
def is_write_new_then_swap (finalPath : String) : List FileOp → Bool
  | [FileOp.openWrite t1, FileOp.writeContent t2 _, FileOp.renameFile t3 dst] =>
      t1 != finalPath && t1 == t2 && t2 == t3 && dst == finalPath
  | _ => false

/-- The content of weather_cache.json after a list of operations has run,
starting from content old.  Opening the file with mode w truncates it to
empty; a write replaces the content.  (The trace of save_weather_cache
contains no rename; a rename of another file leaves this content.) -/
def cache_file_after (old : String) : List FileOp → String
  | [] => old
  | FileOp.openWrite p :: rest =>
      cache_file_after (if p == "weather_cache.json" then "" else old) rest
  | FileOp.writeContent p c :: rest =>
      cache_file_after (if p == "weather_cache.json" then c else old) rest
  | FileOp.renameFile _ _ :: rest => cache_file_after old rest

/-- The spec scenario of claim C2: choose service 3 (Weed Control, 65.0),
choose product 2 at 45.99 with subtotal 45.99, schedule 2025-06-01 09:00
with empty instructions, confirm with the commit succeeding. -/
def c2_scenario_ops : List DraftOp :=
  [DraftOp.chooseService 3 "Weed Control" 65,
   DraftOp.chooseProducts [⟨2, 45.99⟩] (some 45.99),
   DraftOp.schedule "2025-06-01" "09:00" (some ""),
   DraftOp.confirm true]

/-- Round num/den to the nearest integer, ties to even — the IEEE-754
default rounding, written on the scaled numerator so everything stays in
Nat. -/
def round_half_even (num den : Nat) : Nat :=
  let q := num / den
  let r := num % den
  if den < 2 * r then q + 1
  else if 2 * r < den then q
  else if q % 2 = 0 then q else q + 1

/-- The binary64 (Python float) value of the decimal num/den for num/den
in the binade from 2 ^ e to 2 ^ (e + 1): binary64 carries 53 significand
bits, so the representable grid step there is 2 ^ (e - 52); the result is
the scaled mantissa n whose value is n / 2 ^ (52 - e). -/
def float64_mantissa (num den e : Nat) : Nat :=
  round_half_even (num * 2 ^ (52 - e)) den

/-- The binary64 value of the Python literal 45.99 (binade exponent 5,
since 32 is at most 45.99 which is below 64), scaled by 2 ^ 47. -/
def dbl_45_99 : Nat := float64_mantissa 4599 100 5

/-- The binary64 value of the Python literal 110.99 (binade exponent 6),
scaled by 2 ^ 46. -/
def dbl_110_99 : Nat := float64_mantissa 11099 100 6

/-- The binary64 sum 65.0 + float64(45.99) exactly as Python evaluates
total_price in the C2 scenario (app.py line 330): the exact sum at scale
2 ^ 47 — 65.0 is representable there — rounded to the grid of the sum
binade from 64 to 128, scaled by 2 ^ 46. -/
def scenario_float64_total : Nat := round_half_even (65 * 2 ^ 47 + dbl_45_99) 2

/-- Two character strings differ only in letter case: pointwise, the
characters agree after lowercasing. -/
def case_variant : List Char → List Char → Bool
  | [], [] => true
  | a :: as, b :: bs => (a.toLower == b.toLower) && case_variant as bs
  | _, _ => false

/-- Two character strings differ only in letter case or in whitespace
characters: pointwise, the characters agree after lowercasing or are both
whitespace. -/
def case_or_whitespace_variant : List Char → List Char → Bool
  | [], [] => true
  | a :: as, b :: bs =>
      (a.toLower == b.toLower || (a.isWhitespace && b.isWhitespace)) &&
      case_or_whitespace_variant as bs
  | _, _ => false

/-- The draft of the C1/C2 witness scenario after step 3. -/
def bd_witness : BookingData :=
  { service_id := 3, service_name := "Weed Control", price := 65,
    products := some [⟨2, 45.99⟩], products_total := some 45.99,
    scheduled_date := some "2025-06-01", scheduled_time := some "09:00",
    special_instructions := some "" }

/-- The Weed Control service row (id 3 in the seeded table). -/
def svc_weed : Service :=
  ⟨3, "Weed Control", "Professional weed control treatment", 65, 1, true⟩

/-- A concrete payload value used by the weather witnesses. -/
def payload_austin : WeatherPayload := get_mock_weather_data "Austin, TX"

/-- A concrete cache holding a fresh entry for Austin, TX. -/
def cache_austin : WeatherCache :=
  [(cache_key "Austin, TX", ⟨payload_austin, some 0⟩)]

/-! Helper lemmas -/

/-- Every invocation of booking_step4 on a present draft either takes the
full success path (service found, schedule present and parseable, commit
succeeded: the draft is cleared and exactly the one new row is appended) or
fails with a structured message, keeping the draft and the table intact. -/
theorem booking_step4_post_cases (bd : BookingData) (services : List Service)
    (uid : Nat) (commit_ok : Bool) (db : List Booking) :
    (∃ svc ds ts dt, find_service services bd.service_id = some svc ∧
        bd.scheduled_date = some ds ∧ bd.scheduled_time = some ts ∧
        strptime_date_time ds ts = some dt ∧ commit_ok = true ∧
        booking_step4_post (some bd) services uid commit_ok db
          = (none, db ++ [bookingOf uid svc dt bd],
             Resp.json true (some "Booking confirmed successfully!")))
    ∨ (∃ msg, booking_step4_post (some bd) services uid commit_ok db
          = (some bd, db, Resp.json false (some msg))) := by
  cases hsvc : find_service services bd.service_id with
  | none =>
      right
      exact ⟨"Service not found", by simp [booking_step4_post, hsvc]⟩
  | some svc =>
    cases hds : bd.scheduled_date with
    | none =>
        right
        exact ⟨"Error confirming booking", by simp [booking_step4_post, hsvc, hds]⟩
    | some ds =>
      cases hts : bd.scheduled_time with
      | none =>
          right
          exact ⟨"Error confirming booking", by simp [booking_step4_post, hsvc, hds, hts]⟩
      | some ts =>
        cases hdt : strptime_date_time ds ts with
        | none =>
            right
            exact ⟨"Error confirming booking",
              by simp [booking_step4_post, hsvc, hds, hts, hdt]⟩
        | some dt =>
          cases commit_ok with
          | false =>
              right
              exact ⟨"Error confirming booking",
                by simp [booking_step4_post, hsvc, hds, hts, hdt]⟩
          | true =>
              left
              exact ⟨svc, ds, ts, dt, rfl, rfl, rfl, hdt, rfl,
                by simp [booking_step4_post, hsvc, hds, hts, hdt]⟩

/-- Looking up the key just stored by a dictionary assignment returns the
stored entry. -/
theorem cacheFind_cacheUpsert (cache : WeatherCache) (k : String) (v : CacheEntry) :
    cacheFind (cacheUpsert cache k v) k = some v := by
  induction cache with
  | nil => simp [cacheUpsert, cacheFind, List.find?]
  | cons head rest ih =>
      obtain ⟨k0, v0⟩ := head
      by_cases h : k0 = k
      · subst h
        simp [cacheUpsert, cacheFind, List.find?]
      · have hb : (k0 == k) = false := by simpa using h
        simp only [cacheUpsert, hb, if_false, cacheFind, List.find?, hb] at ih ⊢
        exact ih

/-- The fallback branch of fetch_and_fallback: whenever the provider call
failed, the mock payload is answered and the cache is left untouched. -/
theorem fetch_and_fallback_of_failed (location : String) (cache : WeatherCache)
    (t_stamp t_resp : Int) (outcome : ProviderOutcome)
    (hfail : provider_failed outcome = true) :
    fetch_and_fallback location cache t_stamp t_resp outcome
      = ({ success := true, data := get_mock_weather_data location, cached := false,
           mock := true, timestamp := some t_resp }, cache) := by
  cases outcome with
  | exception => rfl
  | response status has_err payload =>
      have hcond : ¬ (status = 200 ∧ has_err = false) := by
        intro hc
        rw [hc.1, hc.2] at hfail
        simp [provider_failed] at hfail
      simp [fetch_and_fallback, hcond]

/-- Evaluating booking_step4 on the witness draft with a succeeding
commit. -/
theorem step4_bd_witness_success :
    booking_step4_post (some bd_witness) services_demo 1 true []
      = (none, [bookingOf 1 svc_weed ⟨2025, 6, 1, 9, 0⟩ bd_witness],
         Resp.json true (some "Booking confirmed successfully!")) := by
  have hsvc : find_service services_demo 3 = some svc_weed := by decide
  have hdt : strptime_date_time "2025-06-01" "09:00" = some ⟨2025, 6, 1, 9, 0⟩ := by
    decide
  simp [booking_step4_post, hsvc, hdt, bd_witness]

/-- Evaluating the C2 scenario: the final state has no draft and exactly
the one booking built from the witness draft. -/
theorem c2_scenario_state :
    (runOps services_demo 1 ⟨none, []⟩ c2_scenario_ops).1
      = ⟨none, [bookingOf 1 svc_weed ⟨2025, 6, 1, 9, 0⟩ bd_witness]⟩ := by
  have hsvc : find_service services_demo 3 = some svc_weed := by decide
  have hdt : strptime_date_time "2025-06-01" "09:00" = some ⟨2025, 6, 1, 9, 0⟩ := by
    decide
  simp [c2_scenario_ops, runOps, runOp, booking_step2_post, booking_step3_post,
        booking_step4_post, hsvc, hdt, bd_witness]

/-- When the cache has no valid entry for the key, get_weather runs the
fetch-then-fallback tail and reports the provider call. -/
theorem get_weather_no_hit (location : String) (cache : WeatherCache)
    (t_check t_stamp t_resp : Int) (outcome : ProviderOutcome)
    (h : cache_valid_hit location cache t_check = false) :
    get_weather location cache t_check t_stamp t_resp outcome
      = ((fetch_and_fallback location cache t_stamp t_resp outcome).1,
         (fetch_and_fallback location cache t_stamp t_resp outcome).2, true) := by
  cases hfind : cacheFind cache (cache_key location) with
  | none => simp [get_weather, hfind]
  | some entry =>
      have hval : is_cache_valid entry.timestamp t_check = false := by
        simpa [cache_valid_hit, hfind] using h
      simp [get_weather, hfind, hval]

/-- When the cache has a valid entry for the key, get_weather answers it
tagged cached, leaves the cache alone, and makes no provider call. -/
theorem get_weather_hit (location : String) (cache : WeatherCache)
    (t_check t_stamp t_resp : Int) (outcome : ProviderOutcome)
    (h : cache_valid_hit location cache t_check = true) :
    ∃ entry, cacheFind cache (cache_key location) = some entry ∧
      is_cache_valid entry.timestamp t_check = true ∧
      get_weather location cache t_check t_stamp t_resp outcome
        = ({ success := true, data := entry.data, cached := true, mock := false,
             timestamp := entry.timestamp }, cache, false) := by
  cases hfind : cacheFind cache (cache_key location) with
  | none => simp [cache_valid_hit, hfind] at h
  | some entry =>
      have hval : is_cache_valid entry.timestamp t_check = true := by
        simpa [cache_valid_hit, hfind] using h
      exact ⟨entry, rfl, hval, by simp [get_weather, hfind, hval]⟩

/-- The fetch-then-fallback tail only writes the cache on a 200 response
without an error key; whenever it answers the mock payload the cache is
returned untouched. -/
theorem fetch_and_fallback_cache (location : String) (cache : WeatherCache)
    (t_stamp t_resp : Int) (outcome : ProviderOutcome) :
    ((fetch_and_fallback location cache t_stamp t_resp outcome).1.mock = true →
       (fetch_and_fallback location cache t_stamp t_resp outcome).2 = cache)
    ∧ ((fetch_and_fallback location cache t_stamp t_resp outcome).2 ≠ cache →
       ∃ payload, outcome = ProviderOutcome.response 200 false payload) := by
  cases outcome with
  | exception => simp [fetch_and_fallback]
  | response status has_err payload =>
      by_cases hc : status = 200 ∧ has_err = false
      · obtain ⟨h1, h2⟩ := hc
        subst h1; subst h2
        simp [fetch_and_fallback]
      · simp [fetch_and_fallback, hc]

/-- Strings that agree pointwise after lowercasing have the same
lowercased character list. -/
theorem map_toLower_of_case_variant :
    ∀ as bs : List Char, case_variant as bs = true →
      as.map Char.toLower = bs.map Char.toLower
  | [], [], _ => rfl
  | a :: as, b :: bs, h => by
      simp only [case_variant, Bool.and_eq_true, beq_iff_eq] at h
      simp [h.1, map_toLower_of_case_variant as bs h.2]
  | [], _ :: _, h => by simp [case_variant] at h
  | _ :: _, [], h => by simp [case_variant] at h

/-! Claim theorems -/

/-- Claim C1: for every Finalizer invocation that reaches the durable
write (service found, schedule present and parseable), a failing commit
yields a failure response with the transaction rolled back (bookings table
unchanged) and the session draft intact, while a successful commit creates
exactly one durable Booking and clears the draft — persistence and
draft-clearing act as one atomic unit. -/
theorem C1_finalizer_atomicity
    (bd : BookingData) (services : List Service) (uid : Nat) (db : List Booking)
    (svc : Service) (ds ts : String) (dt : DateTime)
    (hsvc : find_service services bd.service_id = some svc)
    (hds : bd.scheduled_date = some ds) (hts : bd.scheduled_time = some ts)
    (hdt : strptime_date_time ds ts = some dt) :
    booking_step4_post (some bd) services uid false db
      = (some bd, db, Resp.json false (some "Error confirming booking"))
    ∧ booking_step4_post (some bd) services uid true db
      = (none, db ++ [bookingOf uid svc dt bd],
         Resp.json true (some "Booking confirmed successfully!")) := by
  constructor <;> simp [booking_step4_post, hsvc, hds, hts, hdt]

/-- Witness for C1 at a concrete draft, service table and user. -/
theorem C1_finalizer_atomicity_witness :
    booking_step4_post (some bd_witness) services_demo 1 false []
      = (some bd_witness, [], Resp.json false (some "Error confirming booking"))
    ∧ booking_step4_post (some bd_witness) services_demo 1 true []
      = (none, [bookingOf 1 ⟨3, "Weed Control", "Professional weed control treatment", 65, 1, true⟩
                  ⟨2025, 6, 1, 9, 0⟩ bd_witness],
         Resp.json true (some "Booking confirmed successfully!")) :=
  C1_finalizer_atomicity bd_witness services_demo 1 []
    ⟨3, "Weed Control", "Professional weed control treatment", 65, 1, true⟩
    "2025-06-01" "09:00" ⟨2025, 6, 1, 9, 0⟩ (by decide) rfl rfl (by decide)

/-- Counterexample to claim C2 as frozen: in the binary64 arithmetic the
program actually computes with, the scenario total 65.0 + 45.99 (app.py
line 330) is one ulp above the binary64 value of the literal 110.99, so
total_price == 110.99 is false of the persisted float — even though the
exact-rational evaluation of the same scenario yields 110.99 exactly.
The first four conjuncts check the binades used by the float64 model. -/
theorem C2_float64_scenario_counterexample :
    (32 * 100 ≤ 4599 ∧ 4599 < 64 * 100)
    ∧ (64 * 100 ≤ 11099 ∧ 11099 < 128 * 100)
    ∧ (64 * 2 ^ 46 ≤ scenario_float64_total ∧ scenario_float64_total < 128 * 2 ^ 46)
    ∧ (64 * 2 ^ 46 ≤ dbl_110_99 ∧ dbl_110_99 < 128 * 2 ^ 46)
    ∧ scenario_float64_total ≠ dbl_110_99
    ∧ scenario_float64_total = dbl_110_99 + 1
    ∧ (runOps services_demo 1 ⟨none, []⟩ c2_scenario_ops).1.db.map Booking.total_price
        = [110.99] := by
  refine ⟨by decide, by decide, by decide, by decide, by decide, by decide, ?_⟩
  rw [c2_scenario_state]
  simp [bookingOf, bd_witness, svc_weed]
  norm_num

/-- Claim C2 as amended: every successful Finalizer call persists a
Booking whose total_price is computed as the service price plus the draft
products_total (taken as 0 when absent), with status confirmed; in the
spec scenario, the total is 110.99 exactly under exact decimal arithmetic,
but the binary64 float the program stores is one ulp above the binary64
value of the literal 110.99 — total_price == 110.99 is false in the
program's float arithmetic. -/
theorem C2_total_price_amended
    (bd : BookingData) (services : List Service) (uid : Nat) (commit_ok : Bool)
    (db : List Booking) (sess2 : Option BookingData) (db2 : List Booking)
    (m : Option String)
    (h : booking_step4_post (some bd) services uid commit_ok db
          = (sess2, db2, Resp.json true m)) :
    (∃ svc dt, find_service services bd.service_id = some svc ∧
       db2 = db ++ [bookingOf uid svc dt bd] ∧
       (bookingOf uid svc dt bd).total_price = svc.price + bd.products_total.getD 0 ∧
       (bookingOf uid svc dt bd).status = "confirmed")
    ∧ (runOps services_demo 1 ⟨none, []⟩ c2_scenario_ops).1.db.map Booking.total_price
        = [110.99]
    ∧ (runOps services_demo 1 ⟨none, []⟩ c2_scenario_ops).1.db.map Booking.status
        = ["confirmed"]
    ∧ scenario_float64_total = dbl_110_99 + 1 := by
  refine ⟨?_, ?_, ?_, by decide⟩
  · rcases booking_step4_post_cases bd services uid commit_ok db with
      ⟨svc, ds, ts, dt, h1, h2, h3, h4, h5, heq⟩ | ⟨msg, heq⟩
    · rw [heq] at h
      simp only [Prod.mk.injEq] at h
      exact ⟨svc, dt, h1, h.2.1.symm, rfl, rfl⟩
    · rw [heq] at h
      simp at h
  · rw [c2_scenario_state]
    simp [bookingOf, bd_witness, svc_weed]
    norm_num
  · rw [c2_scenario_state]
    simp [bookingOf]

/-- Witness for C2 as amended, at the concrete scenario state. -/
theorem C2_total_price_amended_witness :
    ∃ svc dt, find_service services_demo bd_witness.service_id = some svc ∧
      [bookingOf 1 svc_weed ⟨2025, 6, 1, 9, 0⟩ bd_witness]
        = [] ++ [bookingOf 1 svc dt bd_witness] ∧
      (bookingOf 1 svc dt bd_witness).total_price
        = svc.price + bd_witness.products_total.getD 0 ∧
      (bookingOf 1 svc dt bd_witness).status = "confirmed" :=
  (C2_total_price_amended bd_witness services_demo 1 true [] none
    [bookingOf 1 svc_weed ⟨2025, 6, 1, 9, 0⟩ bd_witness]
    (some "Booking confirmed successfully!") step4_bd_witness_success).1

/-- Claim C5: after one successful Finalizer call the draft is cleared, so
a second confirm without re-choosing a service finds no draft and is
answered with the redirect to step 1 (the user-visible form of
NoDraftError), whatever the commit outcome of the retry would have been. -/
theorem C5_double_confirm_redirects
    (bd : BookingData) (services : List Service) (uid : Nat)
    (commit_ok : Bool) (db : List Booking) (sess1 : Option BookingData)
    (db1 : List Booking) (m : Option String)
    (h : booking_step4_post (some bd) services uid commit_ok db
          = (sess1, db1, Resp.json true m)) :
    sess1 = none ∧
    ∀ commit_ok2, booking_step4_post sess1 services uid commit_ok2 db1
      = (none, db1, Resp.redirectStep1) := by
  rcases booking_step4_post_cases bd services uid commit_ok db with
    ⟨svc, ds, ts, dt, h1, h2, h3, h4, h5, heq⟩ | ⟨msg, heq⟩
  · rw [heq] at h
    simp only [Prod.mk.injEq] at h
    obtain ⟨h6, -, -⟩ := h
    subst h6
    exact ⟨rfl, fun _ => rfl⟩
  · rw [heq] at h
    simp at h

/-- Witness for C5 at the concrete scenario state. -/
theorem C5_double_confirm_redirects_witness :
    (none : Option BookingData) = none ∧
    ∀ commit_ok2, booking_step4_post none services_demo 1 commit_ok2
        [bookingOf 1 svc_weed ⟨2025, 6, 1, 9, 0⟩ bd_witness]
      = (none, [bookingOf 1 svc_weed ⟨2025, 6, 1, 9, 0⟩ bd_witness],
         Resp.redirectStep1) :=
  C5_double_confirm_redirects bd_witness services_demo 1 true [] none
    [bookingOf 1 svc_weed ⟨2025, 6, 1, 9, 0⟩ bd_witness]
    (some "Booking confirmed successfully!") step4_bd_witness_success

/-- Claim C6: in any sequence of draft operations containing no service
selection, every chooseProducts and schedule call is answered with the
failure message No booking data found, every confirm with the redirect to
step 1, and neither the (absent) draft nor the bookings table changes. -/
theorem C6_no_service_all_fail
    (services : List Service) (uid : Nat) (db : List Booking) (ops : List DraftOp)
    (h : ∀ op ∈ ops, isServiceChoice op = false) :
    runOps services uid ⟨none, db⟩ ops = (⟨none, db⟩, ops.map noDraftResp) := by
  induction ops with
  | nil => rfl
  | cons op rest ih =>
      have hop := h op (List.mem_cons_self _ _)
      have hrest : ∀ o ∈ rest, isServiceChoice o = false :=
        fun o ho => h o (List.mem_cons_of_mem _ ho)
      cases op with
      | chooseService a b c => simp [isServiceChoice] at hop
      | chooseProducts ps t =>
          simp [runOps, runOp, booking_step2_post, noDraftResp, ih hrest]
      | schedule a b c =>
          simp [runOps, runOp, booking_step3_post, noDraftResp, ih hrest]
      | confirm ok =>
          simp [runOps, runOp, booking_step4_post, noDraftResp, ih hrest]

/-- Witness for C6: products, schedule and confirm issued with no prior
service selection. -/
theorem C6_no_service_all_fail_witness :
    runOps services_demo 1 ⟨none, []⟩
        [DraftOp.chooseProducts [⟨2, 45.99⟩] (some 45.99),
         DraftOp.schedule "2025-06-01" "09:00" (some ""),
         DraftOp.confirm true]
      = (⟨none, []⟩,
         [Resp.json false (some "No booking data found"),
          Resp.json false (some "No booking data found"),
          Resp.redirectStep1]) :=
  C6_no_service_all_fail services_demo 1 []
    [DraftOp.chooseProducts [⟨2, 45.99⟩] (some 45.99),
     DraftOp.schedule "2025-06-01" "09:00" (some ""),
     DraftOp.confirm true]
    (by decide)

/-- Claim C10: a service selection request succeeds from every session
state and replaces the whole draft with exactly the three fields
service_id, service_name and price: products, products_total, schedule and
instructions recorded in any prior draft are discarded. -/
theorem C10_service_selection_resets
    (sess : Option BookingData) (sid : Nat) (sname : String) (p : Rat) :
    booking_step2_post sess (Step2Req.serviceSelect sid sname p)
      = (some { service_id := sid, service_name := sname, price := p,
                products := none, products_total := none, scheduled_date := none,
                scheduled_time := none, special_instructions := none },
         Resp.json true none) := rfl

/-- Claim C3: for every location, when the cache has no valid entry and
the provider call fails in any of the handled ways (transport exception,
non-200 status such as 500, or a body with an error key), get_weather
returns success true with mock true and the deterministic mock payload for
that location, whose temperature is 72, leaving the cache unchanged. -/
theorem C3_provider_failure_mock
    (location : String) (cache : WeatherCache) (t_check t_stamp t_resp : Int)
    (outcome : ProviderOutcome)
    (hmiss : cache_valid_hit location cache t_check = false)
    (hfail : provider_failed outcome = true) :
    get_weather location cache t_check t_stamp t_resp outcome
      = ({ success := true, data := get_mock_weather_data location, cached := false,
           mock := true, timestamp := some t_resp }, cache, true)
    ∧ (get_mock_weather_data location).temperature = 72 := by
  refine ⟨?_, rfl⟩
  rw [get_weather_no_hit location cache t_check t_stamp t_resp outcome hmiss,
      fetch_and_fallback_of_failed location cache t_stamp t_resp outcome hfail]

/-- Witness for C3: location Nowhere, empty cache, provider answering
HTTP 500. -/
theorem C3_provider_failure_mock_witness :
    get_weather "Nowhere" [] 0 1 2 (ProviderOutcome.response 500 false payload_austin)
      = ({ success := true, data := get_mock_weather_data "Nowhere", cached := false,
           mock := true, timestamp := some 2 }, [], true)
    ∧ (get_mock_weather_data "Nowhere").temperature = 72 :=
  C3_provider_failure_mock "Nowhere" [] 0 1 2
    (ProviderOutcome.response 500 false payload_austin) rfl rfl

/-- Counterexample to claim C4 as frozen: with the two datetime.now()
reads of the fetch path distinct — cache stamp 0 at app.py line 442,
response stamp 1 at line 451, the cache-file write between them — the
second call within two hours answers the stored stamp, so its payload
differs from the first response in the timestamp field too, not only in
the cached flag (exactly one provider call is still made). -/
theorem C4_two_clocks_counterexample :
    (get_weather "Austin, TX" [] 0 0 1
        (ProviderOutcome.response 200 false payload_austin)).2.2 = true
    ∧ (100 : Int) - 0 < 7200
    ∧ (get_weather "Austin, TX"
         (get_weather "Austin, TX" [] 0 0 1
            (ProviderOutcome.response 200 false payload_austin)).2.1
         100 100 101 ProviderOutcome.exception).2.2 = false
    ∧ (get_weather "Austin, TX"
         (get_weather "Austin, TX" [] 0 0 1
            (ProviderOutcome.response 200 false payload_austin)).2.1
         100 100 101 ProviderOutcome.exception).1
        ≠ { (get_weather "Austin, TX" [] 0 0 1
              (ProviderOutcome.response 200 false payload_austin)).1 with
            cached := true }
    ∧ (get_weather "Austin, TX"
         (get_weather "Austin, TX" [] 0 0 1
            (ProviderOutcome.response 200 false payload_austin)).2.1
         100 100 101 ProviderOutcome.exception).1
        = { (get_weather "Austin, TX" [] 0 0 1
              (ProviderOutcome.response 200 false payload_austin)).1 with
            cached := true, timestamp := some 0 } := by
  refine ⟨rfl, by decide, rfl, ?_, rfl⟩
  decide

/-- Claim C4 as amended: a cache entry younger than two hours is answered
as-is, tagged cached, with no provider call; two calls for the same
location within two hours, the provider reachable on the first, make
exactly one provider call and return payloads identical except for the
cached flag and the timestamp field: the first call carries the
response-build clock read of line 451, the second the stored cache stamp
of line 442 — two distinct datetime.now() reads that differ in general. -/
theorem C4_cache_freshness_amended
    (location : String) (cache : WeatherCache) (t_check : Int) :
    (∀ entry outcome t_stamp t_resp,
        cacheFind cache (cache_key location) = some entry →
        is_cache_valid entry.timestamp t_check = true →
        get_weather location cache t_check t_stamp t_resp outcome
          = ({ success := true, data := entry.data, cached := true, mock := false,
               timestamp := entry.timestamp }, cache, false))
    ∧ (∀ payload t_stamp t_resp t_check2 t_stamp2 t_resp2 outcome2,
        cache_valid_hit location cache t_check = false →
        t_check2 - t_stamp < 7200 →
        get_weather location cache t_check t_stamp t_resp
            (ProviderOutcome.response 200 false payload)
          = ({ success := true, data := payload, cached := false, mock := false,
               timestamp := some t_resp },
             cacheUpsert cache (cache_key location) ⟨payload, some t_stamp⟩, true)
        ∧ get_weather location
              (cacheUpsert cache (cache_key location) ⟨payload, some t_stamp⟩)
              t_check2 t_stamp2 t_resp2 outcome2
          = ({ success := true, data := payload, cached := true, mock := false,
               timestamp := some t_stamp },
             cacheUpsert cache (cache_key location) ⟨payload, some t_stamp⟩, false)) := by
  constructor
  · intro entry outcome t_stamp t_resp hfind hval
    simp [get_weather, hfind, hval]
  · intro payload t_stamp t_resp t_check2 t_stamp2 t_resp2 outcome2 hmiss hfresh
    constructor
    · rw [get_weather_no_hit location cache t_check t_stamp t_resp _ hmiss]
      simp [fetch_and_fallback]
    · have hfind2 := cacheFind_cacheUpsert cache (cache_key location) ⟨payload, some t_stamp⟩
      have hval2 : is_cache_valid (some t_stamp) t_check2 = true := by
        simpa [is_cache_valid] using hfresh
      simp [get_weather, hfind2, hval2]

/-- Witness for C4 as amended: a fresh Austin, TX entry is served from the
cache with no provider call; from an empty cache, a reachable provider is
called once (stamp 0, response stamp 1) and the second call within two
hours is served cached, carrying the stored stamp 0. -/
theorem C4_cache_freshness_amended_witness :
    get_weather "Austin, TX" cache_austin 0 1 2 ProviderOutcome.exception
      = ({ success := true, data := payload_austin, cached := true, mock := false,
           timestamp := some 0 }, cache_austin, false)
    ∧ (get_weather "Austin, TX" [] 0 0 1
          (ProviderOutcome.response 200 false payload_austin)
         = ({ success := true, data := payload_austin, cached := false, mock := false,
              timestamp := some 1 },
            cacheUpsert [] (cache_key "Austin, TX") ⟨payload_austin, some 0⟩, true)
       ∧ get_weather "Austin, TX"
             (cacheUpsert [] (cache_key "Austin, TX") ⟨payload_austin, some 0⟩)
             100 100 101 ProviderOutcome.exception
         = ({ success := true, data := payload_austin, cached := true, mock := false,
              timestamp := some 0 },
            cacheUpsert [] (cache_key "Austin, TX") ⟨payload_austin, some 0⟩, false)) :=
  ⟨(C4_cache_freshness_amended "Austin, TX" cache_austin 0).1 ⟨payload_austin, some 0⟩
      ProviderOutcome.exception 1 2 rfl rfl,
   (C4_cache_freshness_amended "Austin, TX" [] 0).2 payload_austin 0 1 100 100 101
      ProviderOutcome.exception rfl (by decide)⟩

/-- Claim C7 (evaluation of the code at the failing behaviour): the
operation trace of save_weather_cache is never the
write-new-file-then-rename pattern; its first operation is a truncating
in-place open of weather_cache.json, after which the file content is empty
— neither the old content nor the new one — so an interruption there
leaves a torn file. -/
theorem C7_save_is_in_place (serialized : String) :
    is_write_new_then_swap "weather_cache.json" (save_weather_cache_trace serialized)
      = false
    ∧ List.take 1 (save_weather_cache_trace serialized)
        = [FileOp.openWrite "weather_cache.json"]
    ∧ cache_file_after "oldcache" [FileOp.openWrite "weather_cache.json"] = ""
    ∧ ("" : String) ≠ "oldcache" :=
  ⟨rfl, rfl, rfl, by decide⟩

/-- Counterexample to claim C8 as stated: the locations built from the
characters a-space-b and a-tab-b differ only in whitespace characters, yet
their cache keys differ (only the space character is mapped to an
underscore). -/
theorem C8_whitespace_counterexample :
    case_or_whitespace_variant "a b".data "a\tb".data = true
    ∧ cache_key "a b" ≠ cache_key "a\tb" := by
  constructor
  · decide
  · decide

/-- Claim C8 as amended: the cache-key normalization is case-insensitive —
two locations agreeing pointwise after lowercasing get the same key — and
maps the space character (not every whitespace character) to an
underscore, so a key never contains a space. -/
theorem C8_case_insensitive_space_underscore
    (s t : String) (h : case_variant s.data t.data = true) :
    cache_key s = cache_key t ∧ ∀ u : String, ' ' ∉ (cache_key u).data := by
  constructor
  · have hmap := map_toLower_of_case_variant s.data t.data h
    simp [cache_key, cache_key_chars, hmap]
  · intro u hmem
    have hdata : (cache_key u).data = cache_key_chars u.data := rfl
    rw [hdata] at hmem
    simp only [cache_key_chars, List.mem_append, List.mem_map] at hmem
    rcases hmem with h1 | ⟨x, hx, hfx⟩
    · revert h1
      decide
    · by_cases hsp : x = ' '
      · rw [hsp] at hfx
        simp at hfx
      · rw [if_neg hsp] at hfx
        exact hsp hfx

/-- Witness for C8 as amended: Austin, TX in two capitalizations. -/
theorem C8_case_insensitive_witness :
    cache_key "Austin, TX" = cache_key "austin, tx"
    ∧ ∀ u : String, ' ' ∉ (cache_key u).data :=
  C8_case_insensitive_space_underscore "Austin, TX" "austin, tx" (by decide)

/-- Claim C9: a mock fallback result is never written to the weather
cache — whenever the response is tagged mock the cache is exactly what it
was before the call — and any cache change comes from a successful
provider response (status 200, no error key). -/
theorem C9_mock_never_cached
    (location : String) (cache : WeatherCache) (t_check t_stamp t_resp : Int)
    (outcome : ProviderOutcome) :
    ((get_weather location cache t_check t_stamp t_resp outcome).1.mock = true →
       (get_weather location cache t_check t_stamp t_resp outcome).2.1 = cache)
    ∧ ((get_weather location cache t_check t_stamp t_resp outcome).2.1 ≠ cache →
       ∃ payload, outcome = ProviderOutcome.response 200 false payload) := by
  rcases Bool.eq_false_or_eq_true (cache_valid_hit location cache t_check) with hhit | hmiss
  case inl =>
    obtain ⟨entry, hfind, hval, heq⟩ :=
      get_weather_hit location cache t_check t_stamp t_resp outcome hhit
    rw [heq]
    exact ⟨fun hm => by simp at hm, fun hne => absurd rfl hne⟩
  case inr =>
    rw [get_weather_no_hit location cache t_check t_stamp t_resp outcome hmiss]
    exact fetch_and_fallback_cache location cache t_stamp t_resp outcome

/-- Witness for C9: a failing provider call on an empty cache answers the
mock payload and leaves the cache empty. -/
theorem C9_mock_never_cached_witness :
    (get_weather "Nowhere" [] 0 1 2 ProviderOutcome.exception).2.1 = [] :=
  (C9_mock_never_cached "Nowhere" [] 0 1 2 ProviderOutcome.exception).1 rfl

end LawnService
